import Mathlib

/-!
Verification of the chi demo HTTP server (`main.go`).

The embedding models the program's two components — the `Handler`
error-adapter and the `FileServer` route mounter — together with the parts
of the Go standard library and the chi router that their observable
behaviour depends on.

Modelling conventions:
* An HTTP response writer is a trace of header/body write events plus a
  header map.  The client-visible status and body are derived from the
  trace with Go's first-commit semantics (the first `WriteHeader` wins;
  a `Write` before any `WriteHeader` commits status 200; no event at all
  also yields a 200 with empty body).
* A Go `error` value is modelled by its message string (`errors.New`).
* A Go panic during `FileServer` setup is modelled by an explicit
  `GoPanic` result; the route list returned alongside it is the router's
  route table at the moment of the panic.
* Requests are modelled with a decoded URL path and an already-parsed
  query (so `URL.RawPath = ""`, which makes Go's `http.StripPrefix`
  RawPath check vacuous).
* Go indexes strings by byte; `path[len(path)-1] != '/'` is modelled by
  comparing the last character with `/`, which agrees with the byte-level
  comparison because in UTF-8 the final byte of a multi-byte character is
  at least 0x80 and hence never equals 0x2F.
-/

/-- Chars are compared frequently; the two routing braces are written via
their code points. -/
def lbraceChar : Char := Char.ofNat 123

def rbraceChar : Char := Char.ofNat 125

/-- Models Go `strings.ContainsAny s chars`: does `s` contain any char of
the set? -/
def containsAny (s : String) (chars : List Char) : Bool :=
  s.data.any (fun c => chars.contains c)

/-- The character set `"{}*"` from `FileServer`'s validation check. -/
def metaChars : List Char := [lbraceChar, rbraceChar, '*']

/-- Models Go `strings.TrimPrefix s pre`: `s` without the leading `pre` if
present, else `s` unchanged. -/
def trimPrefixStr (s pre : String) : String :=
  if pre.data.isPrefixOf s.data then ⟨s.data.drop pre.data.length⟩ else s

/-- Models Go `strings.TrimSuffix s suf`: `s` without the trailing `suf` if
present, else `s` unchanged. -/
def trimSuffixStr (s suf : String) : String :=
  if suf.data.isSuffixOf s.data then ⟨s.data.take (s.data.length - suf.data.length)⟩ else s

/-- Models Go `strings.HasPrefix`. -/
def hasPrefixStr (s pre : String) : Bool :=
  pre.data.isPrefixOf s.data

/-- A single call made on an `http.ResponseWriter`: an explicit
`WriteHeader(code)` or a body `Write(bytes)`. -/
inductive WEvent where
  | header (code : Nat)
  | chunk (s : String)
deriving DecidableEq

/-- The response writer: response headers (set before the status commit in
this program) and the ordered trace of writer calls. -/
structure ResponseWriter where
  headers : List (String × String)
  events : List WEvent
deriving DecidableEq

/-- The writer a fresh request starts with: no headers, no events. -/
def initRW : ResponseWriter := ⟨[], []⟩

/-- Models `w.Header().Set(k, v)`: replace any previous value of `k`. -/
def setHeader (w : ResponseWriter) (k v : String) : ResponseWriter :=
  { w with headers := (k, v) :: w.headers.filter (fun p => p.1 ≠ k) }

/-- Models `w.WriteHeader(code)`: the call is recorded; the derived view
below applies Go's rule that only the first commit counts. -/
def writeHeader (w : ResponseWriter) (code : Nat) : ResponseWriter :=
  { w with events := w.events ++ [WEvent.header code] }

/-- Models `w.Write(bytes)`. -/
def write (w : ResponseWriter) (s : String) : ResponseWriter :=
  { w with events := w.events ++ [WEvent.chunk s] }

/-- The status the client sees: the first `WriteHeader` code, 200 if the
first writer call was a `Write`, and 200 if the handler wrote nothing
(net/http sends an empty 200 in that case). -/
def clientStatus (w : ResponseWriter) : Nat :=
  match w.events with
  | [] => 200
  | WEvent.header code :: _ => code
  | WEvent.chunk _ :: _ => 200

/-- The body the client sees: all `Write` chunks concatenated in order. -/
def clientBody (w : ResponseWriter) : String :=
  (w.events.filterMap (fun e => match e with
    | WEvent.chunk s => some s
    | WEvent.header _ => none)).foldl (fun a b => a ++ b) ""

/-- The `Location` response header, if set. -/
def clientLocation (w : ResponseWriter) : Option String :=
  (w.headers.find? (fun p => p.1 == "Location")).map (fun p => p.2)

/-- An HTTP request: method, decoded URL path, parsed query parameters. -/
structure Request where
  method : String
  path : String
  query : List (String × String)
deriving DecidableEq

/-- Models Go `url.Values.Get(key)`: the first value for the key, or `""`
when the key is absent. -/
def queryGet (q : List (String × String)) (key : String) : String :=
  match q.find? (fun p => p.1 == key) with
  | some p => p.2
  | none => ""

/-- The repository's `Handler` type:
`type Handler func(w http.ResponseWriter, r *http.Request) error`.
The returned error is modelled by its message string. -/
def Handler : Type := Request → ResponseWriter → ResponseWriter × Option String

/-- The repository's adapter method (`main.go` lines 16-22):

```
func (h Handler) ServeHTTP(w http.ResponseWriter, r *http.Request) {
    if err := h(w, r); err != nil {
        w.WriteHeader(503)
        w.Write([]byte("bad"))
    }
}
``` -/
def Handler.ServeHTTP (h : Handler) (req : Request) (w : ResponseWriter) : ResponseWriter :=
  match h req w with
  | (w1, some _) => write (writeHeader w1 503) "bad"
  | (w1, none) => w1

/-- The repository's `customHandler` (`main.go` lines 59-68):

```
func customHandler(w http.ResponseWriter, r *http.Request) error {
    q := r.URL.Query().Get("err")
    if q != "" {
        return errors.New(q)
    }
    w.Write([]byte("A whole bunch of messages and such"))
    return nil
}
``` -/
def customHandler : Handler := fun req w =>
  let q := queryGet req.query "err"
  if q ≠ "" then (w, some q)
  else (write w "A whole bunch of messages and such", none)

/-- The filesystem passed to `FileServer` (`http.FileSystem`), modelled at
lookup granularity: a table from absolute slash-rooted paths to file
contents. -/
def FileSystem : Type := List (String × String)

/-- Models Go `http.NotFound` / `http.Error(w, "404 page not found", 404)`:
sets the two plaintext headers, writes status 404 and the standard body
(`Fprintln` appends the newline). -/
def httpNotFound (w : ResponseWriter) : ResponseWriter :=
  write
    (writeHeader
      (setHeader (setHeader w "Content-Type" "text/plain; charset=utf-8")
        "X-Content-Type-Options" "nosniff")
      404)
    "404 page not found\n"

/-- Models `http.FileServer(root).ServeHTTP` at lookup granularity: the
request path is rooted with a leading `/` if missing (as in Go), then
resolved against the filesystem table; a hit streams the content, a miss
responds 404.  `path.Clean`, index files, directory listings and content
headers are byte-serving mechanics of the standard library that no claim
depends on and are not modelled. -/
def httpFileServer (root : FileSystem) (req : Request) (w : ResponseWriter) : ResponseWriter :=
  let upath := if hasPrefixStr req.path "/" then req.path else "/" ++ req.path
  match root.find? (fun p => p.1 == upath) with
  | some p => write w p.2
  | none => httpNotFound w

/-- Models Go `http.StripPrefix(pfx, h)` for requests with empty
`URL.RawPath`: an empty prefix returns the handler unchanged; otherwise the
prefix is trimmed off the path, and if nothing was trimmed the request is
answered 404 without invoking `h`. -/
def stripPrefixH (pfx : String) (h : Request → ResponseWriter → ResponseWriter)
    (req : Request) (w : ResponseWriter) : ResponseWriter :=
  if pfx = "" then h req w
  else
    let p := trimPrefixStr req.path pfx
    if p.length < req.path.length then h { req with path := p } w
    else httpNotFound w

/-- Hex digit in lowercase, as produced by Go `strconv.AppendInt(_, _, 16)`. -/
def hexDigit (n : Nat) : Char :=
  if n < 10 then Char.ofNat (48 + n) else Char.ofNat (87 + n)

/-- The UTF-8 encoding of a character as byte values. -/
def utf8Bytes (c : Char) : List Nat :=
  let n := c.toNat
  if n < 128 then [n]
  else if n < 2048 then [192 + n / 64, 128 + n % 64]
  else if n < 65536 then [224 + n / 4096, 128 + (n / 64) % 64, 128 + n % 64]
  else [240 + n / 262144, 128 + (n / 4096) % 64, 128 + (n / 64) % 64, 128 + n % 64]

/-- Models Go net/http `hexEscapeNonASCII`: every byte at or above 0x80 is
percent-encoded in lowercase hex, ASCII bytes are kept. -/
def hexEscapeNonASCII (s : String) : String :=
  s.data.foldl
    (fun acc c =>
      (utf8Bytes c).foldl
        (fun a b =>
          if 128 ≤ b then
            a ++ "%" ++ String.singleton (hexDigit (b / 16)) ++ String.singleton (hexDigit (b % 16))
          else a ++ String.singleton (Char.ofNat b))
        acc)
    ""

/-- Models Go net/http `htmlEscape` on one character (`htmlReplacer`). -/
def htmlEscapeChar (c : Char) : String :=
  if c = '&' then "&amp;"
  else if c = Char.ofNat 39 then "&#39;"
  else if c = '<' then "&lt;"
  else if c = '>' then "&gt;"
  else if c = Char.ofNat 34 then "&#34;"
  else String.singleton c

/-- Models Go net/http `htmlEscape`. -/
def htmlEscape (s : String) : String :=
  s.data.foldl (fun acc c => acc ++ htmlEscapeChar c) ""

/-- The fragment of Go `http.StatusText` this program can reach: the only
redirect handler it constructs uses code 301. -/
def statusText (code : Nat) : String :=
  if code = 301 then "Moved Permanently" else ""

/-- Models `http.RedirectHandler(url, code).ServeHTTP` (net/http
`Redirect`) for absolute-path target URLs — the program only passes
`path + "/"`, which starts with `/`, so the relative-URL resolution step of
`Redirect` is the identity.  The `Location` header is set to the
hex-escaped URL; for GET requests without a preset Content-Type a small
HTML body is written after the status (`Fprintln` appends a newline). -/
def redirectHandler (url : String) (code : Nat) (req : Request) (w : ResponseWriter) :
    ResponseWriter :=
  let hadCT := (w.headers.find? (fun p => p.1 == "Content-Type")).isSome
  let w1 := setHeader w "Location" (hexEscapeNonASCII url)
  let w2 :=
    if !hadCT && req.method == "GET" then
      setHeader w1 "Content-Type" "text/html; charset=utf-8"
    else w1
  let w3 := writeHeader w2 code
  if !hadCT && req.method == "GET" then
    write w3 ("<a href=\"" ++ htmlEscape url ++ "\">" ++ statusText code ++ "</a>.\n\n")
  else w3

/-- A handler registered on the router.  `fileDir` is the closure
registered by `FileServer` (`main.go` lines 83-88); its dependence on the
route pattern matched at request time is made explicit in `runHandler`. -/
inductive RouteHandler where
  | plain (f : Request → ResponseWriter → ResponseWriter)
  | redirect (url : String) (code : Nat)
  | fileDir (root : FileSystem)

/-- One route registration: HTTP method, chi pattern, handler. -/
structure Route where
  method : String
  pattern : String
  handler : RouteHandler

/-- A Go panic raised during `FileServer` setup: either the explicit
`panic("FileServer does not permit any URL parameters.")` or the runtime
index-out-of-range panic from `path[len(path)-1]` on an empty path. -/
inductive GoPanic where
  | message (s : String)
  | indexOutOfRange
deriving DecidableEq

/-- Models the short-circuit condition
`path != "/" && path[len(path)-1] != '/'` (`main.go` line 77).
`none` means evaluating `path[len(path)-1]` panicked (empty `path`);
`some b` is the condition's value. -/
def redirectCond (path : String) : Option Bool :=
  if path = "/" then some false
  else
    match path.data.getLast? with
    | none => none
    | some c => some (c != '/')

/-- The repository's `FileServer` (`main.go` lines 72-89):

```
func FileServer(r chi.Router, path string, root http.FileSystem) {
    if strings.ContainsAny(path, "\x7b\x7d*") {
        panic("FileServer does not permit any URL parameters.")
    }
    if path != "/" && path[len(path)-1] != '/' {
        r.Get(path, http.RedirectHandler(path+"/", 301).ServeHTTP)
        path += "/"
    }
    path += "*"
    r.Get(path, func(w http.ResponseWriter, r *http.Request) {
        rctx := chi.RouteContext(r.Context())
        pathPrefix := strings.TrimSuffix(rctx.RoutePattern(), "/*")
        fs := http.StripPrefix(pathPrefix, http.FileServer(root))
        fs.ServeHTTP(w, r)
    })
}
```

The router is threaded explicitly: the result is the route table after the
call together with the panic, if one was raised; registrations made before
a panic are kept, as they would be on the mutable chi router. -/
def FileServer (r : List Route) (path : String) (root : FileSystem) :
    List Route × Option GoPanic :=
  if containsAny path metaChars then
    (r, some (GoPanic.message "FileServer does not permit any URL parameters."))
  else
    match redirectCond path with
    | none => (r, some GoPanic.indexOutOfRange)
    | some needsRedirect =>
      let (r1, p1) :=
        if needsRedirect then
          (r ++ [⟨"GET", path, RouteHandler.redirect (path ++ "/") 301⟩], path ++ "/")
        else (r, path)
      (r1 ++ [⟨"GET", p1 ++ "*", RouteHandler.fileDir root⟩], none)

/-- Is a chi pattern a trailing-`*` catch-all? -/
def isWildcard (pat : String) : Bool :=
  pat.data.getLast? == some '*'

/-- The fixed prefix of a catch-all pattern (the pattern without its
trailing `*`). -/
def wildcardPre (pat : String) : String :=
  ⟨pat.data.dropLast⟩

/-- Runs a registered handler.  `matchedPattern` is the route pattern the
router matched for this request (`chi.RouteContext(r.Context()).RoutePattern()`);
the `fileDir` handler derives its strip prefix from it, exactly as the
closure in `FileServer` does. -/
def runHandler (h : RouteHandler) (matchedPattern : String) (req : Request)
    (w : ResponseWriter) : ResponseWriter :=
  match h with
  | RouteHandler.plain f => f req w
  | RouteHandler.redirect url code => redirectHandler url code req w
  | RouteHandler.fileDir root =>
      let pathPfx := trimSuffixStr matchedPattern "/*"
      stripPrefixH pathPfx (httpFileServer root) req w

/-- Models chi's dispatch for the route shapes this program registers:
static patterns match the exact path, trailing-`*` patterns match any path
with their fixed prefix, and a static match beats a catch-all (chi's
most-specific-wins trie). -/
def findRoute (routes : List Route) (req : Request) : Option Route :=
  match routes.find? (fun rt =>
      rt.method == req.method && !isWildcard rt.pattern && rt.pattern == req.path) with
  | some rt => some rt
  | none =>
      routes.find? (fun rt =>
        rt.method == req.method && isWildcard rt.pattern
          && hasPrefixStr req.path (wildcardPre rt.pattern))

/-- Serves one request against a route table from a fresh writer; an
unmatched request gets chi's default 404 (`http.NotFound`).  The three
middlewares installed in `main` (RequestID, Logger, Recoverer) do not
change the response of a non-panicking handler and are external
collaborators per the spec, so they do not appear here. -/
def serve (routes : List Route) (req : Request) : ResponseWriter :=
  match findRoute routes req with
  | some rt => runHandler rt.handler rt.pattern req initRW
  | none => httpNotFound initRW

/-- The `GET /` handler from `main` (`main.go` lines 42-44). -/
def helloHandler (_ : Request) (w : ResponseWriter) : ResponseWriter :=
  write w "hello world"

/-- The routes `main` registers before mounting the file server:
`r.Get("/", ...)` and `r.Method("GET", "/picture", Handler(customHandler))`. -/
def baseRoutes : List Route :=
  [⟨"GET", "/", RouteHandler.plain helloHandler⟩,
   ⟨"GET", "/picture", RouteHandler.plain (Handler.ServeHTTP customHandler)⟩]

/-- The program's full route table: `main`'s registrations followed by
`FileServer(r, "/files", filesDir)`, parameterised by the contents of the
`./data` directory. -/
def mainRouter (root : FileSystem) : List Route :=
  (FileServer baseRoutes "/files" root).1

/-- The normalized mount path as the spec words it: the mount path itself
when it already ends in `/` (which covers the path `"/"`), otherwise the
mount path with `/` appended.  Stated from the spec for comparison with
the route table `FileServer` builds. -/
def normalizedPath (path : String) : String :=
  if path.data.getLast? = some '/' then path else path ++ "/"

/-- C1: for every wrapped handler and every request, when the wrapped
function returns a non-nil error the adapter performs exactly
`WriteHeader(503)` followed by `Write("bad")` — a result that does not
depend on the error value — and consequently every request
`GET /picture?err=<nonempty>` receives client-visible status 503 with body
exactly `"bad"`, regardless of the parameter's content. -/
theorem c1_adapter_503_bad :
    (∀ (h : Handler) (req : Request) (w w1 : ResponseWriter) (e : String),
      h req w = (w1, some e) →
      Handler.ServeHTTP h req w = write (writeHeader w1 503) "bad") ∧
    (∀ (root : FileSystem) (v : String), v ≠ "" →
      clientStatus (serve (mainRouter root) ⟨"GET", "/picture", [("err", v)]⟩) = 503 ∧
      clientBody (serve (mainRouter root) ⟨"GET", "/picture", [("err", v)]⟩) = "bad") := by
  constructor
  · intro h req w w1 e hh
    unfold Handler.ServeHTTP
    rw [hh]
  · intro root v hv
    simp [serve, mainRouter, FileServer, containsAny, metaChars, lbraceChar, rbraceChar,
      redirectCond, baseRoutes, findRoute, isWildcard, runHandler, Handler.ServeHTTP,
      customHandler, queryGet, hv, clientStatus, clientBody, write, writeHeader, initRW]

/-- C1 witness at the concrete request `GET /picture?err=boom`. -/
theorem c1_adapter_503_bad_witness :
    clientStatus (serve (mainRouter []) ⟨"GET", "/picture", [("err", "boom")]⟩) = 503 ∧
    clientBody (serve (mainRouter []) ⟨"GET", "/picture", [("err", "boom")]⟩) = "bad" :=
  c1_adapter_503_bad.2 [] "boom" (by decide)

/-- C2: a mount path containing `{`, `}` or `*` makes `FileServer` abort
setup with the configuration panic — it never silently succeeds. -/
theorem c2_metachar_panic :
    ∀ (r : List Route) (path : String) (root : FileSystem) (c : Char),
      c ∈ path.data → (c = lbraceChar ∨ c = rbraceChar ∨ c = '*') →
      (FileServer r path root).2 =
          some (GoPanic.message "FileServer does not permit any URL parameters.") ∧
        (FileServer r path root).2 ≠ none := by
  intro r path root c hmem hc
  have hany : containsAny path metaChars = true := by
    simp only [containsAny, List.any_eq_true]
    refine ⟨c, hmem, ?_⟩
    rcases hc with h | h | h <;> subst h <;> rfl
  simp [FileServer, hany]

/-- C2 witness at the concrete mount path `/fi*les`. -/
theorem c2_metachar_panic_witness :
    (FileServer [] "/fi*les" []).2 =
        some (GoPanic.message "FileServer does not permit any URL parameters.") ∧
      (FileServer [] "/fi*les" []).2 ≠ none :=
  c2_metachar_panic [] "/fi*les" [] '*' (by decide) (Or.inr (Or.inr rfl))

/-- C3: for a valid non-empty mount path that is not `/` and does not end
in `/`, `FileServer` registers the GET redirect route at the exact mount
path (before the wildcard route), pointing at `mountPath + "/"` with code
301; concretely, `GET /files` is answered 301 with `Location: /files/`. -/
theorem c3_redirect_registration :
    (∀ (r : List Route) (path : String) (root : FileSystem),
      containsAny path metaChars = false → path ≠ "/" → path ≠ "" →
      path.data.getLast? ≠ some '/' →
      FileServer r path root =
        (r ++ [⟨"GET", path, RouteHandler.redirect (path ++ "/") 301⟩,
               ⟨"GET", (path ++ "/") ++ "*", RouteHandler.fileDir root⟩], none)) ∧
    (∀ root : FileSystem,
      clientStatus (serve (mainRouter root) ⟨"GET", "/files", []⟩) = 301 ∧
      clientLocation (serve (mainRouter root) ⟨"GET", "/files", []⟩) = some "/files/") := by
  constructor
  · intro r path root hmeta hslash hempty hlast
    have hdata : path.data ≠ [] := by
      intro h
      apply hempty
      cases path
      simp_all
    obtain ⟨c, hc⟩ := Option.ne_none_iff_exists'.mp (mt List.getLast?_eq_none_iff.mp hdata)
    have hcslash : c ≠ '/' := by
      intro h
      subst h
      exact hlast hc
    simp [FileServer, hmeta, redirectCond, hslash, hc, hcslash]
  · intro root
    exact ⟨rfl, rfl⟩

/-- C3 witness: the route table `FileServer` builds for `/files` on an
empty router, and the concrete `GET /files` response. -/
theorem c3_redirect_registration_witness :
    FileServer [] "/files" [] =
        ([] ++ [⟨"GET", "/files", RouteHandler.redirect ("/files" ++ "/") 301⟩,
                ⟨"GET", ("/files" ++ "/") ++ "*", RouteHandler.fileDir []⟩], none) ∧
      clientStatus (serve (mainRouter []) ⟨"GET", "/files", []⟩) = 301 ∧
      clientLocation (serve (mainRouter []) ⟨"GET", "/files", []⟩) = some "/files/" :=
  ⟨c3_redirect_registration.1 [] "/files" [] (by decide) (by decide) (by decide) (by decide),
   c3_redirect_registration.2 []⟩

/-- C4: whenever `FileServer` completes without panicking it has appended
a GET route at `normalizedPath + "*"` backed by the mounted directory;
the handler of such a route derives its strip prefix from the route
pattern matched at request time (pattern minus the trailing `/*`), not
from the configured mount path; and concretely, a request below
`/files/*` is resolved against the root directory with the `/files`
prefix removed. -/
theorem c4_wildcard_strips_matched_pattern :
    (∀ (r : List Route) (path : String) (root : FileSystem),
      (FileServer r path root).2 = none →
      ∃ pre, (FileServer r path root).1 =
        pre ++ [⟨"GET", normalizedPath path ++ "*", RouteHandler.fileDir root⟩]) ∧
    (∀ (root : FileSystem) (pat : String) (req : Request) (w : ResponseWriter),
      runHandler (RouteHandler.fileDir root) pat req w =
        stripPrefixH (trimSuffixStr pat "/*") (httpFileServer root) req w) ∧
    (∀ (root : FileSystem) (suffix : String) (q : List (String × String)) (w : ResponseWriter),
      runHandler (RouteHandler.fileDir root) "/files/*" ⟨"GET", "/files/" ++ suffix, q⟩ w =
        httpFileServer root ⟨"GET", "/" ++ suffix, q⟩ w) := by
  refine ⟨?_, fun root pat req w => rfl, ?_⟩
  · intro r path root hnone
    by_cases hmeta : containsAny path metaChars
    · simp [FileServer, hmeta] at hnone
    · cases hrc : redirectCond path with
      | none => simp [FileServer, hmeta, hrc] at hnone
      | some b =>
        cases b with
        | false =>
          have hnp : normalizedPath path = path := by
            unfold redirectCond at hrc
            by_cases hp : path = "/"
            · subst hp
              rfl
            · simp only [hp, if_false] at hrc
              cases hl : path.data.getLast? with
              | none => simp [hl] at hrc
              | some c =>
                simp only [hl, Option.some.injEq] at hrc
                have : c = '/' := by
                  cases hcc : c == '/' with
                  | true => exact eq_of_beq hcc
                  | false => simp [bne, hcc] at hrc
                unfold normalizedPath
                simp [hl, this]
          refine ⟨r, ?_⟩
          simp [FileServer, hmeta, hrc, hnp]
        | true =>
          have hp : path ≠ "/" := by
            intro h
            subst h
            simp [redirectCond] at hrc
          have hnp : normalizedPath path = path ++ "/" := by
            unfold redirectCond at hrc
            simp only [hp, if_false] at hrc
            cases hl : path.data.getLast? with
            | none => simp [hl] at hrc
            | some c =>
              simp only [hl, Option.some.injEq] at hrc
              have : c ≠ '/' := by
                intro h
                subst h
                simp [bne] at hrc
              unfold normalizedPath
              simp [hl, this]
          refine ⟨r ++ [⟨"GET", path, RouteHandler.redirect (path ++ "/") 301⟩], ?_⟩
          simp [FileServer, hmeta, hrc, hnp]
  · intro root suffix q w
    obtain ⟨l⟩ := suffix
    show stripPrefixH "/files" (httpFileServer root)
        ⟨"GET", String.mk ('/' :: 'f' :: 'i' :: 'l' :: 'e' :: 's' :: '/' :: l), q⟩ w =
      httpFileServer root ⟨"GET", String.mk ('/' :: l), q⟩ w
    simp only [stripPrefixH, trimPrefixStr]
    norm_num [String.length]
    exact fun h => absurd h (by decide)

/-- C4 witness: the wildcard registration for `/files` and the file
`/hello.txt` served for `GET /files/hello.txt`. -/
theorem c4_wildcard_strips_matched_pattern_witness :
    (∃ pre, (FileServer [] "/files" [("/hello.txt", "hi")]).1 =
        pre ++ [⟨"GET", normalizedPath "/files" ++ "*",
                 RouteHandler.fileDir [("/hello.txt", "hi")]⟩]) ∧
      runHandler (RouteHandler.fileDir [("/hello.txt", "hi")]) "/files/*"
          ⟨"GET", "/files/" ++ "hello.txt", []⟩ initRW =
        httpFileServer [("/hello.txt", "hi")] ⟨"GET", "/" ++ "hello.txt", []⟩ initRW :=
  ⟨c4_wildcard_strips_matched_pattern.1 [] "/files" [("/hello.txt", "hi")] (by decide),
   c4_wildcard_strips_matched_pattern.2.2 [("/hello.txt", "hi")] "hello.txt" [] initRW⟩

/-- C5: `GET /picture` with no `err` parameter is answered 200 with the
fixed success body, and the `err=""` request produces the identical
response. -/
theorem c5_picture_success :
    ∀ root : FileSystem,
      clientStatus (serve (mainRouter root) ⟨"GET", "/picture", []⟩) = 200 ∧
      clientBody (serve (mainRouter root) ⟨"GET", "/picture", []⟩) =
          "A whole bunch of messages and such" ∧
      serve (mainRouter root) ⟨"GET", "/picture", [("err", "")]⟩ =
        serve (mainRouter root) ⟨"GET", "/picture", []⟩ :=
  fun _ => ⟨rfl, rfl, rfl⟩

/-- C6: exactly one response is produced by the adapter composition — on
success the adapter adds nothing beyond what the wrapped function wrote;
on failure the adapter appends its own 503/"bad" response, and the
program's wrapped function (`customHandler`) has written nothing on that
path, while on success it writes exactly its one body. -/
theorem c6_exactly_one_response :
    (∀ (h : Handler) (req : Request) (w : ResponseWriter),
      (h req w).2 = none → Handler.ServeHTTP h req w = (h req w).1) ∧
    (∀ (h : Handler) (req : Request) (w w1 : ResponseWriter) (e : String),
      h req w = (w1, some e) →
      (Handler.ServeHTTP h req w).events =
        w1.events ++ [WEvent.header 503, WEvent.chunk "bad"]) ∧
    (∀ (req : Request) (w : ResponseWriter),
      ((customHandler req w).2.isSome → (customHandler req w).1 = w) ∧
      ((customHandler req w).2 = none →
        (customHandler req w).1.events =
          w.events ++ [WEvent.chunk "A whole bunch of messages and such"])) := by
  refine ⟨?_, ?_, ?_⟩
  · intro h req w hnone
    unfold Handler.ServeHTTP
    cases hh : h req w with
    | mk w1 e =>
      cases e with
      | none => simp
      | some s => rw [hh] at hnone; simp at hnone
  · intro h req w w1 e hh
    unfold Handler.ServeHTTP
    rw [hh]
    simp [write, writeHeader]
  · intro req w
    by_cases hq : queryGet req.query "err" ≠ ""
    · constructor
      · intro _
        simp [customHandler, hq]
      · intro hnone
        simp [customHandler, hq] at hnone
    · constructor
      · intro hsome
        simp [customHandler, hq] at hsome
      · intro _
        simp [customHandler, hq, write]

/-- C6 witness at the success request `GET /picture` and the failure
request `GET /picture?err=x`, both from a fresh writer. -/
theorem c6_exactly_one_response_witness :
    Handler.ServeHTTP customHandler ⟨"GET", "/picture", []⟩ initRW =
        (customHandler ⟨"GET", "/picture", []⟩ initRW).1 ∧
      (Handler.ServeHTTP customHandler ⟨"GET", "/picture", [("err", "x")]⟩ initRW).events =
        (initRW.events ++ [WEvent.header 503, WEvent.chunk "bad"]) ∧
      (customHandler ⟨"GET", "/picture", [("err", "x")]⟩ initRW).1 = initRW :=
  ⟨c6_exactly_one_response.1 customHandler ⟨"GET", "/picture", []⟩ initRW (by decide),
   c6_exactly_one_response.2.1 customHandler ⟨"GET", "/picture", [("err", "x")]⟩ initRW
     initRW "x" (by decide),
   (c6_exactly_one_response.2.2 ⟨"GET", "/picture", [("err", "x")]⟩ initRW).1 (by decide)⟩

/-- C7: `GET /` is answered 200 with body exactly `"hello world"`. -/
theorem c7_hello_world :
    ∀ root : FileSystem,
      clientStatus (serve (mainRouter root) ⟨"GET", "/", []⟩) = 200 ∧
      clientBody (serve (mainRouter root) ⟨"GET", "/", []⟩) = "hello world" :=
  fun _ => ⟨rfl, rfl⟩

/-- C8: the empty mount path hits `path[len(path)-1]` on an empty string,
so `FileServer` fails with the runtime index-out-of-range panic (not the
configuration panic) before registering anything; conversely any call
that completes without a panic had a non-empty path. -/
theorem c8_empty_path_index_panic :
    (∀ (r : List Route) (root : FileSystem),
      FileServer r "" root = (r, some GoPanic.indexOutOfRange)) ∧
    (∀ (r : List Route) (path : String) (root : FileSystem),
      (FileServer r path root).2 = none → path ≠ "") := by
  constructor
  · intro r root
    rfl
  · intro r path root hnone hpath
    subst hpath
    simp [FileServer, containsAny, metaChars, redirectCond] at hnone

/-- C8 witness: the empty path on an empty router, and a non-panicking
call with path `/files`. -/
theorem c8_empty_path_index_panic_witness :
    FileServer [] "" [] = ([], some GoPanic.indexOutOfRange) ∧ "/files" ≠ "" :=
  ⟨c8_empty_path_index_panic.1 [] [], c8_empty_path_index_panic.2 [] "/files" [] (by decide)⟩

/-- C9: the metacharacter validation runs before any registration: on a
mount path containing `{`, `}` or `*` the call panics with the route
table exactly as it was passed in — no redirect route and no wildcard
route was added. -/
theorem c9_no_registration_on_panic :
    ∀ (r : List Route) (path : String) (root : FileSystem),
      containsAny path metaChars = true →
      FileServer r path root =
        (r, some (GoPanic.message "FileServer does not permit any URL parameters.")) := by
  intro r path root hany
  simp [FileServer, hany]

/-- C9 witness at a mount path containing a left brace, on a one-route
router whose table is returned untouched. -/
theorem c9_no_registration_on_panic_witness :
    FileServer [⟨"GET", "/", RouteHandler.plain helloHandler⟩]
        (String.mk ['/', lbraceChar, 'x']) [] =
      ([⟨"GET", "/", RouteHandler.plain helloHandler⟩],
       some (GoPanic.message "FileServer does not permit any URL parameters.")) :=
  c9_no_registration_on_panic [⟨"GET", "/", RouteHandler.plain helloHandler⟩]
    (String.mk ['/', lbraceChar, 'x']) [] (by decide)

/-- C10: `customHandler` writes nothing before failing — with a non-empty
`err` parameter it returns the error made of that value and the writer it
was given, unchanged; the success body is written exactly when it returns
nil; and on the failure path the entire client-visible response consists
of the adapter's two writes (status 503, body "bad") alone. -/
theorem c10_failure_response_from_adapter_alone :
    (∀ (req : Request) (w : ResponseWriter),
      queryGet req.query "err" ≠ "" →
      customHandler req w = (w, some (queryGet req.query "err"))) ∧
    (∀ (req : Request) (w : ResponseWriter),
      (customHandler req w).2 = none →
      customHandler req w = (write w "A whole bunch of messages and such", none)) ∧
    (∀ (root : FileSystem) (v : String), v ≠ "" →
      (serve (mainRouter root) ⟨"GET", "/picture", [("err", v)]⟩).events =
        [WEvent.header 503, WEvent.chunk "bad"]) := by
  refine ⟨?_, ?_, ?_⟩
  · intro req w hq
    simp [customHandler, hq]
  · intro req w hnone
    by_cases hq : queryGet req.query "err" ≠ ""
    · simp [customHandler, hq] at hnone
    · simp [customHandler, hq]
  · intro root v hv
    simp [serve, mainRouter, FileServer, containsAny, metaChars, lbraceChar, rbraceChar,
      redirectCond, baseRoutes, findRoute, isWildcard, runHandler, Handler.ServeHTTP,
      customHandler, queryGet, hv, write, writeHeader, initRW]

/-- C10 witness at the concrete failure request `GET /picture?err=oops`. -/
theorem c10_failure_response_from_adapter_alone_witness :
    customHandler ⟨"GET", "/picture", [("err", "oops")]⟩ initRW =
        (initRW, some (queryGet [("err", "oops")] "err")) ∧
      (serve (mainRouter []) ⟨"GET", "/picture", [("err", "oops")]⟩).events =
        [WEvent.header 503, WEvent.chunk "bad"] :=
  ⟨c10_failure_response_from_adapter_alone.1 ⟨"GET", "/picture", [("err", "oops")]⟩ initRW
     (by decide),
   c10_failure_response_from_adapter_alone.2.2 [] "oops" (by decide)⟩
